import Mathlib

/-!
Verification development for the payable-asset smart contract.

The definitions below are a shallow embedding of the Rust sources of the contract
(the mature v2 generation: src/core, src/execute, src/instantiate, src/migrate,
src/query, src/util).  Machine integers (u128 amounts) are modelled as Nat;
cosmwasm Uint128 subtraction only occurs at places where the source has already
established that no underflow happens (each such place is noted).  The cosmwasm
Decimal type is a fixed-point value with 18 fractional digits; it is modelled by
its atomics numerator.  Fallible contract entry points return Except: an error
result corresponds to the whole transaction aborting with no state written,
matching the all-or-nothing semantics the host ledger provides.
-/

deriving instance DecidableEq for Except

namespace PayableContract

/-- Coin mirrors cosmwasm_std::Coin: a denomination paired with a u128 amount. -/
structure Coin where
  denom : String
  amount : Nat
deriving Repr, DecidableEq, Inhabited

/-- Decimal mirrors cosmwasm_std::Decimal: a fixed-point number stored as an
integer numerator over the fixed denominator 10 to the 18th power. -/
structure Decimal where
  atomics : Nat
deriving Repr, DecidableEq, Inhabited

/-- Fixed denominator of cosmwasm Decimal values (DECIMAL_FRACTIONAL). -/
def decimalFractional : Nat := 10 ^ 18

/-- Decimal::one, the ratio 1.0. -/
def Decimal.one : Decimal := ⟨decimalFractional⟩

/-- Decimal::percent, building the ratio p/100. -/
def Decimal.percent (p : Nat) : Decimal := ⟨p * 10 ^ 16⟩

/-- Decimal comparison, mirroring the derived PartialOrd on cosmwasm Decimal. -/
def Decimal.ltb (a b : Decimal) : Bool := a.atomics < b.atomics

/-- Multiplication of a Uint128 by a Decimal, as implemented by cosmwasm
(multiply_ratio against the fixed denominator): the result is the floor of
a times the ratio. -/
def mulUint128Decimal (a : Nat) (d : Decimal) : Nat :=
  a * d.atomics / decimalFractional

/-- StateV2 from src/core/state.rs: the singleton contract configuration. -/
structure StateV2 where
  contract_name : String
  onboarding_cost : Nat
  onboarding_denom : String
  fee_collection_address : String
  fee_percent : Decimal
  is_local : Bool
deriving Repr, DecidableEq, Inhabited

/-- PayableScopeAttribute from src/core/state.rs: the full payable record,
serialized as an attribute on the scope of the payable (the source of truth). -/
structure PayableScopeAttribute where
  payable_type : String
  payable_uuid : String
  scope_id : String
  oracle_address : String
  payable_denom : String
  payable_total_owed : Nat
  payable_remaining_owed : Nat
  oracle_approved : Bool
deriving Repr, DecidableEq, Inhabited

/-- PayableMetaV2 from src/core/state.rs: the local uuid-to-scope index entry. -/
structure PayableMetaV2 where
  payable_uuid : String
  scope_id : String
deriving Repr, DecidableEq, Inhabited

/-- Scope mirrors the provwasm Scope projection used by the contract: the owner
list consulted by Register and the value owner paid by Pay. -/
structure Scope where
  scope_id : String
  owners : List String
  value_owner_address : String
deriving Repr, DecidableEq, Inhabited

/-- SemVer models a parsed semantic version (Version of the semver crate), with
the lexicographic order the crate derives. -/
structure SemVer where
  major : Nat
  minor : Nat
  patch : Nat
deriving Repr, DecidableEq, Inhabited

/-- Strict lexicographic comparison of semantic versions. -/
def SemVer.ltb (a b : SemVer) : Bool :=
  a.major < b.major ||
    (a.major == b.major &&
      (a.minor < b.minor || (a.minor == b.minor && a.patch < b.patch)))

/-- Rendering of a semantic version back to its dotted string form. -/
def SemVer.str (v : SemVer) : String :=
  toString v.major ++ "." ++ toString v.minor ++ "." ++ toString v.patch

/-- VersionInfo mirrors the version-info singleton described by the spec
(section 3): a contract identifier plus its semantic version.  The version is
stored here already parsed. -/
structure VersionInfo where
  contract : String
  version : SemVer
deriving Repr, DecidableEq, Inhabited

/-- ContractError from src/core/error.rs (plus the variants referenced by the
query and util modules). -/
inductive ContractError where
  | Std (msg : String)
  | Unauthorized
  | DuplicateApproval (payable_uuid : String)
  | DuplicateRegistration (scope_id : String)
  | FundsPresent
  | InsufficientFundsProvided (amount_needed : Nat) (amount_provided : Nat)
  | InvalidContractName (current_contract : String) (migration_contract : String)
  | InvalidContractVersion (current_version : SemVer) (migration_version : SemVer)
  | InvalidFields (fields : List String)
  | InvalidFundsProvided (valid_denom : String) (invalid_denoms : List String)
  | InvalidScopeAttribute (scope_id : String) (attribute_amount : Nat)
  | NoFundsProvided (valid_denom : String)
  | NotReadyForPayment (payable_uuid : String) (not_ready_reason : String)
  | PayableNotFound (payable_uuid : String)
  | PaymentTooLarge (total_owed : Nat) (amount_provided : Nat)
  | Panicked (msg : String)
deriving Repr, DecidableEq, Inhabited

/-- CosmosMsg models the outbound ledger messages the contract emits: bank
transfers, attribute writes and deletions, and name bindings. -/
inductive CosmosMsg where
  | bankSend (to_address : String) (amount : List Coin)
  | addAttribute (scope_id : String) (contract_name : String)
      (attr : PayableScopeAttribute)
  | deleteAttributes (scope_id : String) (contract_name : String)
  | bindName (name : String)
deriving Repr, DecidableEq, Inhabited

/-- Recognizer for bank-transfer messages. -/
def isBankSend : CosmosMsg → Bool
  | .bankSend _ _ => true
  | _ => false

/-- EventAttribute models a cosmwasm response Attribute: a string key/value
event tag. -/
structure EventAttribute where
  key : String
  value : String
deriving Repr, DecidableEq, Inhabited

/-- MessageInfo mirrors cosmwasm MessageInfo: the sender and the deposit. -/
structure MessageInfo where
  sender : String
  funds : List Coin
deriving Repr, DecidableEq, Inhabited

/-- Deps models the storage handle plus the external provenance services the
contract consults: the config singleton, the local uuid-to-scope index, the
attributes tagged on each scope under the contract name, and the scope
registry. -/
structure Deps where
  config : StateV2
  payableMetaV2 : String → Option PayableMetaV2
  scopeAttrs : String → List PayableScopeAttribute
  scopes : String → Option Scope

/-- Event attribute key constants from src/util/constants.rs. -/
def PAYABLE_REGISTERED_KEY : String := "payable_registered"

def SCOPE_ID_KEY : String := "payable_related_scope_id"

def TOTAL_OWED_KEY : String := "payable_total_owed"

def REGISTERED_DENOM_KEY : String := "payable_denom"

def ORACLE_FUNDS_KEPT : String := "payable_oracle_funds_kept"

def REFUND_AMOUNT_KEY : String := "payable_refund_amount"

def ORACLE_APPROVED_KEY : String := "payable_oracle_approved"

def PAYMENT_MADE_KEY : String := "payable_payment_made"

def PAYMENT_AMOUNT_KEY : String := "payable_amount_paid"

def TOTAL_REMAINING_KEY : String := "payable_total_remaining"

def PAYER_KEY : String := "payable_payer"

def PAYEE_KEY : String := "payable_payee"

def MIGRATION_STATE_CHANGE_KEY_BASE : String := "payable_migration_state_field_"

def MIGRATION_CONTRACT_NAME : String := "payable_migration_contract_name"

def MIGRATION_CONTRACT_VERSION : String := "payable_migration_contract_version"

def PAYABLE_UUID_KEY : String := "payable_uuid"

def PAYABLE_TYPE_KEY : String := "payable_type"

def ORACLE_ADDRESS_KEY : String := "payable_oracle_address"

/-- RegisterPayableV2 from src/execute/register_payable.rs. -/
structure RegisterPayableV2 where
  payable_type : String
  payable_uuid : String
  scope_id : String
  oracle_address : String
  payable_denom : String
  payable_total : Nat
deriving Repr, DecidableEq, Inhabited

/-- RegisterPayableV2::to_scope_attribute: the initial record written at
registration, with remaining owed equal to the total and approval unset. -/
def RegisterPayableV2.to_scope_attribute (r : RegisterPayableV2) :
    PayableScopeAttribute :=
  { payable_type := r.payable_type
    payable_uuid := r.payable_uuid
    scope_id := r.scope_id
    oracle_address := r.oracle_address
    payable_denom := r.payable_denom
    payable_total_owed := r.payable_total
    payable_remaining_owed := r.payable_total
    oracle_approved := false }

/-- FeeChargeResponse from src/execute/register_payable.rs. -/
structure FeeChargeResponse where
  fee_charge_message : Option CosmosMsg
  fee_refund_message : Option CosmosMsg
  refund_amount : Nat
  oracle_fee_amount_kept : Nat
deriving Repr, DecidableEq, Inhabited

/-- Denominations of the deposited coins that differ from the expected one.
Both Register and Pay compute this list with the identical filter-map idiom. -/
def invalidDenoms (funds : List Coin) (valid_denom : String) : List String :=
  (funds.filter (fun c => c.denom != valid_denom)).map (fun c => c.denom)

/-- Tail of validate_fee_params_get_messages once the provided funds amount is
known: builds the fee-collector transfer (when the collected fee is positive)
and the sender refund (when an overage is left).  The subtraction
funds_sent - onboarding_cost cannot underflow at this point because the caller
has already rejected insufficient deposits; onboarding_cost minus the collected
fee cannot underflow while fee_percent is at most one. -/
def feeChargeFrom (info : MessageInfo) (state : StateV2) (funds_sent : Nat) :
    FeeChargeResponse :=
  let fee_collected_amount := mulUint128Decimal state.onboarding_cost state.fee_percent
  let fee_charge_message :=
    if fee_collected_amount > 0 then
      some (CosmosMsg.bankSend state.fee_collection_address
        [⟨state.onboarding_denom, fee_collected_amount⟩])
    else none
  let refund_amount := funds_sent - state.onboarding_cost
  let fee_refund_message :=
    if refund_amount > 0 then
      some (CosmosMsg.bankSend info.sender
        [⟨state.onboarding_denom, refund_amount⟩])
    else none
  { fee_charge_message := fee_charge_message
    fee_refund_message := fee_refund_message
    refund_amount := refund_amount
    oracle_fee_amount_kept := state.onboarding_cost - fee_collected_amount }

/-- validate_fee_params_get_messages from src/execute/register_payable.rs:
rejects foreign denominations wholesale, finds the first deposit coin in the
onboarding denom, checks sufficiency against the onboarding cost, and derives
the fee and refund messages. -/
def validate_fee_params_get_messages (info : MessageInfo) (state : StateV2) :
    Except ContractError FeeChargeResponse :=
  let invalid_funds := invalidDenoms info.funds state.onboarding_denom
  if !invalid_funds.isEmpty then
    .error (.InvalidFundsProvided state.onboarding_denom invalid_funds)
  else
    let onboarding_cost := state.onboarding_cost
    match info.funds.find? (fun c => c.denom == state.onboarding_denom) with
    | some c =>
        if onboarding_cost > c.amount then
          .error (.InsufficientFundsProvided onboarding_cost c.amount)
        else
          .ok (feeChargeFrom info state c.amount)
    | none =>
        if onboarding_cost > 0 then
          .error (.NoFundsProvided state.onboarding_denom)
        else
          .ok (feeChargeFrom info state 0)

/-- query_payable_attribute_by_scope_id from src/query/query_payable_by_scope_id.rs:
loads the attributes tagged on the scope under the contract name and demands
exactly one. -/
def query_payable_attribute_by_scope_id (deps : Deps) (scope_id : String) :
    Except ContractError PayableScopeAttribute :=
  match deps.scopeAttrs scope_id with
  | [attr] => .ok attr
  | attrs => .error (.InvalidScopeAttribute scope_id attrs.length)

/-- query_payable_attribute_by_uuid from src/query/query_payable_by_uuid.rs:
resolves the scope through the local uuid index, then loads the attribute. -/
def query_payable_attribute_by_uuid (deps : Deps) (payable_uuid : String) :
    Except ContractError PayableScopeAttribute :=
  match deps.payableMetaV2 payable_uuid with
  | none => .error (.Std "payable meta storage load failed")
  | some meta => query_payable_attribute_by_scope_id deps meta.scope_id

/-- Ownership gate inside register_payable_with_util: unless is_local is set,
the scope is fetched (propagating a lookup failure) and the sender must appear
among its owners. -/
def check_scope_ownership (deps : Deps) (info : MessageInfo) (scope_id : String) :
    Except ContractError Unit :=
  if !deps.config.is_local then
    match deps.scopes scope_id with
    | none => .error (.Std "scope not found")
    | some scope =>
        if ((scope.owners.filter (fun owner => owner == info.sender)).length == 0) then
          .error .Unauthorized
        else .ok ()
  else .ok ()

/-- get_add_initial_attribute_to_scope_msg from src/util/provenance_util.rs:
fails with DuplicateRegistration when the scope already carries an attribute
under the contract name, otherwise emits the add-attribute message. -/
def get_add_initial_attribute_to_scope_msg (deps : Deps)
    (attr : PayableScopeAttribute) (contract_name : String) :
    Except ContractError CosmosMsg :=
  match query_payable_attribute_by_scope_id deps attr.scope_id with
  | .ok _ => .error (.DuplicateRegistration attr.scope_id)
  | .error _ => .ok (.addAttribute attr.scope_id contract_name attr)

/-- upsert_attribute_to_scope from src/util/provenance_util.rs: the host has no
attribute update, so the write is a delete message followed by an add message. -/
def upsert_attribute_to_scope (attr : PayableScopeAttribute)
    (contract_name : String) : List CosmosMsg :=
  [.deleteAttributes attr.scope_id contract_name,
   .addAttribute attr.scope_id contract_name attr]

/-- Result bundle of a successful registration: the response messages and event
tags, plus the two state writes (the scope attribute and the local index row). -/
structure RegisterResponse where
  messages : List CosmosMsg
  attributes : List EventAttribute
  scopeAttribute : PayableScopeAttribute
  savedMeta : PayableMetaV2
deriving Repr, DecidableEq, Inhabited

/-- register_payable_with_util from src/execute/register_payable.rs: charges the
onboarding fee (with optional refund), verifies scope ownership, writes the
initial scope attribute and the local index entry, and emits the event tags. -/
def register_payable (deps : Deps) (info : MessageInfo)
    (register : RegisterPayableV2) : Except ContractError RegisterResponse := do
  let state := deps.config
  let fee_charge_response ← validate_fee_params_get_messages info state
  let feePart :=
    match fee_charge_response.fee_charge_message with
    | some m =>
        ([m], [EventAttribute.mk ORACLE_FUNDS_KEPT
          (toString fee_charge_response.oracle_fee_amount_kept ++ "/" ++
            state.onboarding_denom)])
    | none => ([], [])
  let refundPart :=
    match fee_charge_response.fee_refund_message with
    | some m =>
        ([m], [EventAttribute.mk REFUND_AMOUNT_KEY
          (toString fee_charge_response.refund_amount ++ "/" ++
            state.onboarding_denom)])
    | none => ([], [])
  let _ ← check_scope_ownership deps info register.scope_id
  let eventAttrs : List EventAttribute :=
    [⟨PAYABLE_REGISTERED_KEY, register.payable_uuid⟩,
     ⟨PAYABLE_TYPE_KEY, register.payable_type⟩,
     ⟨PAYABLE_UUID_KEY, register.payable_uuid⟩,
     ⟨ORACLE_ADDRESS_KEY, register.oracle_address⟩,
     ⟨TOTAL_OWED_KEY, toString register.payable_total⟩,
     ⟨REGISTERED_DENOM_KEY, register.payable_denom⟩,
     ⟨SCOPE_ID_KEY, register.scope_id⟩]
  let scope_attribute := register.to_scope_attribute
  let add_msg ← get_add_initial_attribute_to_scope_msg deps scope_attribute
    state.contract_name
  let payable_meta : PayableMetaV2 :=
    ⟨scope_attribute.payable_uuid, scope_attribute.scope_id⟩
  return { messages := feePart.1 ++ refundPart.1 ++ [add_msg]
           attributes := feePart.2 ++ refundPart.2 ++ eventAttrs
           scopeAttribute := scope_attribute
           savedMeta := payable_meta }

/-- OracleApprovalV1 from src/execute/oracle_approval.rs. -/
structure OracleApprovalV1 where
  payable_uuid : String
deriving Repr, DecidableEq, Inhabited

/-- Oracle payout computed at approval time from the current configuration: the
onboarding cost minus the fee the configuration would collect.  The subtraction
cannot underflow while fee_percent is at most one. -/
def oracleWithdrawAmount (state : StateV2) : Nat :=
  state.onboarding_cost - mulUint128Decimal state.onboarding_cost state.fee_percent

/-- Result bundle of a successful oracle approval: the updated record written
back to the scope, plus the response messages and event tags. -/
structure OracleApprovalResponse where
  newAttr : PayableScopeAttribute
  messages : List CosmosMsg
  attributes : List EventAttribute
deriving Repr, DecidableEq, Inhabited

/-- oracle_approval_with_util from src/execute/oracle_approval.rs: rejects any
funds, loads the record, rejects duplicate approvals and foreign senders, pays
the oracle its share when positive, and rewrites the attribute with the
approval flag set. -/
def oracle_approval (deps : Deps) (info : MessageInfo)
    (msg : OracleApprovalV1) : Except ContractError OracleApprovalResponse :=
  if !info.funds.isEmpty then .error .FundsPresent
  else
    match query_payable_attribute_by_uuid deps msg.payable_uuid with
    | .error _ => .error (.PayableNotFound msg.payable_uuid)
    | .ok attr =>
        if attr.oracle_approved then
          .error (.DuplicateApproval msg.payable_uuid)
        else if info.sender != attr.oracle_address then
          .error .Unauthorized
        else
          let state := deps.config
          let payoutMsgs :=
            if oracleWithdrawAmount state > 0 then
              [CosmosMsg.bankSend attr.oracle_address
                [⟨state.onboarding_denom, oracleWithdrawAmount state⟩]]
            else []
          let newAttr := { attr with oracle_approved := true }
          .ok { newAttr := newAttr
                messages := payoutMsgs ++
                  upsert_attribute_to_scope newAttr state.contract_name
                attributes :=
                  [⟨ORACLE_APPROVED_KEY, newAttr.payable_uuid⟩,
                   ⟨PAYABLE_TYPE_KEY, newAttr.payable_type⟩,
                   ⟨PAYABLE_UUID_KEY, newAttr.payable_uuid⟩,
                   ⟨ORACLE_ADDRESS_KEY, newAttr.oracle_address⟩] }

/-- MakePaymentV1 from src/execute/make_payment.rs. -/
structure MakePaymentV1 where
  payable_uuid : String
deriving Repr, DecidableEq, Inhabited

/-- Sum of all deposited coin amounts, as folded by make_payment_with_util. -/
def sumFunds (funds : List Coin) : Nat :=
  funds.foldl (fun acc c => acc + c.amount) 0

/-- Result bundle of a successful payment: the updated record written back to
the scope, plus the response messages and event tags. -/
structure MakePaymentResponse where
  newAttr : PayableScopeAttribute
  messages : List CosmosMsg
  attributes : List EventAttribute
deriving Repr, DecidableEq, Inhabited

/-- make_payment_with_util from src/execute/make_payment.rs: loads the record
(PayableNotFound when the lookup fails, NotReadyForPayment before approval),
rejects foreign denominations wholesale, sums the deposit, rejects empty and
oversized payments, pays the value owner of the scope, and rewrites the attribute
with the remainder decremented.  The subtraction cannot underflow because the
oversized-payment check has just passed. -/
def make_payment (deps : Deps) (info : MessageInfo) (msg : MakePaymentV1) :
    Except ContractError MakePaymentResponse :=
  match query_payable_attribute_by_uuid deps msg.payable_uuid with
  | .error _ => .error (.PayableNotFound msg.payable_uuid)
  | .ok attr =>
      if !attr.oracle_approved then
        .error (.NotReadyForPayment attr.payable_uuid
          "Payable missing oracle approval")
      else
        let invalid_funds := invalidDenoms info.funds attr.payable_denom
        if !invalid_funds.isEmpty then
          .error (.InvalidFundsProvided attr.payable_denom invalid_funds)
        else
          let payment_amount := sumFunds info.funds
          if payment_amount == 0 then
            .error (.NoFundsProvided attr.payable_denom)
          else if payment_amount > attr.payable_remaining_owed then
            .error (.PaymentTooLarge attr.payable_remaining_owed payment_amount)
          else
            match deps.scopes attr.scope_id with
            | none => .error (.Std "scope not found")
            | some scope =>
                let payee := scope.value_owner_address
                let payment_message := CosmosMsg.bankSend payee
                  [⟨attr.payable_denom, payment_amount⟩]
                let newAttr := { attr with
                  payable_remaining_owed :=
                    attr.payable_remaining_owed - payment_amount }
                .ok { newAttr := newAttr
                      messages := payment_message ::
                        upsert_attribute_to_scope newAttr deps.config.contract_name
                      attributes :=
                        [⟨PAYMENT_MADE_KEY, newAttr.payable_uuid⟩,
                         ⟨PAYABLE_TYPE_KEY, newAttr.payable_type⟩,
                         ⟨PAYABLE_UUID_KEY, newAttr.payable_uuid⟩,
                         ⟨ORACLE_ADDRESS_KEY, newAttr.oracle_address⟩,
                         ⟨PAYMENT_AMOUNT_KEY, toString payment_amount⟩,
                         ⟨TOTAL_REMAINING_KEY, toString newAttr.payable_remaining_owed⟩,
                         ⟨PAYER_KEY, info.sender⟩,
                         ⟨PAYEE_KEY, payee⟩] }

/-- MigrateContractV2 from src/migrate/migrate_contract.rs: every configuration
patch field is independently optional. -/
structure MigrateContractV2 where
  onboarding_cost : Option Nat
  onboarding_denom : Option String
  fee_collection_address : Option String
  fee_percent : Option Decimal
deriving Repr, DecidableEq, Inhabited

/-- MigrateContractV2::has_state_changes. -/
def MigrateContractV2.has_state_changes (m : MigrateContractV2) : Bool :=
  m.onboarding_cost.isSome || m.onboarding_denom.isSome ||
    m.fee_collection_address.isSome || m.fee_percent.isSome

/-- state_change_attribute from src/migrate/migrate_contract.rs (the key base
string is MIGRATION_STATE_CHANGE_PREFIX in src/util/constants.rs). -/
def state_change_attribute (field_name : String) (value : String) :
    EventAttribute :=
  ⟨MIGRATION_STATE_CHANGE_KEY_BASE ++ field_name, value⟩

/-- check_valid_migration_versioning from src/migrate/migrate_contract.rs: the
stored contract identifier must equal the running binary identifier, and the
stored semantic version must not exceed the running binary version.  Modelled
from the spec for the parts living in the absent src/migrate/version_info.rs:
get_version_info reads the stored VersionInfo singleton (passed in here), the
CONTRACT_NAME and CONTRACT_VERSION constants are the runningName and
runningVersion parameters, and parse_sem_ver yields the stored version already
parsed as a SemVer triple compared lexicographically. -/
def check_valid_migration_versioning (runningName : String)
    (runningVersion : SemVer) (stored : VersionInfo) :
    Except ContractError Unit :=
  if runningName != stored.contract then
    .error (.InvalidContractName stored.contract runningName)
  else if SemVer.ltb runningVersion stored.version then
    .error (.InvalidContractVersion stored.version runningVersion)
  else .ok ()

/-- Modelled from the spec: migrate_version_info, declared in the absent
src/migrate/version_info.rs, unconditionally overwrites the stored version info
with the running binary identifier and version and returns the new record. -/
def migrate_version_info (runningName : String) (runningVersion : SemVer) :
    VersionInfo :=
  ⟨runningName, runningVersion⟩

/-- Result bundle of a successful migration: the (possibly patched) config, the
re-stamped version info, and the emitted event tags. -/
structure MigrateResponse where
  newState : StateV2
  newVersionInfo : VersionInfo
  attributes : List EventAttribute
deriving Repr, DecidableEq, Inhabited

/-- migrate_contract from src/migrate/migrate_contract.rs: gates on the stored
version info before any write, patches exactly the supplied optional fields
(tagging each with a state-change event), and re-stamps the version info,
emitting the name and version tags. -/
def migrate_contract (runningName : String) (runningVersion : SemVer)
    (stored : VersionInfo) (state : StateV2) (migrate : MigrateContractV2) :
    Except ContractError MigrateResponse := do
  let _ ← check_valid_migration_versioning runningName runningVersion stored
  let patched :=
    if migrate.has_state_changes then
      let s0 := state
      let p1 :=
        match migrate.onboarding_cost with
        | some cost =>
            ({ s0 with onboarding_cost := cost },
             [state_change_attribute "onboarding_cost" (toString cost)])
        | none => (s0, [])
      let p2 :=
        match migrate.onboarding_denom with
        | some denom =>
            ({ p1.1 with onboarding_denom := denom },
             p1.2 ++ [state_change_attribute "onboarding_denom" denom])
        | none => p1
      let p3 :=
        match migrate.fee_collection_address with
        | some fee_addr =>
            ({ p2.1 with fee_collection_address := fee_addr },
             p2.2 ++ [state_change_attribute "fee_collection_address" fee_addr])
        | none => p2
      let p4 :=
        match migrate.fee_percent with
        | some fee_percent =>
            ({ p3.1 with fee_percent := fee_percent },
             p3.2 ++ [state_change_attribute "fee_percent"
               (toString fee_percent.atomics)])
        | none => p3
      p4
    else (state, [])
  let new_version_info := migrate_version_info runningName runningVersion
  return { newState := patched.1
           newVersionInfo := new_version_info
           attributes := patched.2 ++
             [⟨MIGRATION_CONTRACT_NAME, new_version_info.contract⟩,
              ⟨MIGRATION_CONTRACT_VERSION, new_version_info.version.str⟩] }

/-- InitMsg from src/core/msg.rs. -/
structure InitMsg where
  contract_name : String
  onboarding_cost : String
  onboarding_denom : String
  fee_collection_address : String
  fee_percent : Decimal
  is_local : Option Bool
deriving Repr, DecidableEq, Inhabited

/-- Parsing of a decimal string as a u128, as Rust u128::from_str accepts it:
an optional leading plus sign, at least one digit, digits only, and a value
below 2 to the 128th power. -/
def parse_u128 (s : String) : Option Nat :=
  let ds :=
    match s.data with
    | List.cons c rest => if c == '+' then rest else s.data
    | List.nil => []
  if ds.isEmpty then none
  else if ds.all (fun c => c.isDigit) then
    let v := ds.foldl (fun acc c => acc * 10 + (c.toNat - 48)) 0
    if v < 2 ^ 128 then some v else none
  else none

/-- Fields of an InitMsg that fail structural validation, gathered in the push
order of InitMsg::validate in src/core/msg.rs. -/
def initInvalidFields (msg : InitMsg) : List String :=
  (if msg.contract_name.isEmpty then ["contract_name"] else []) ++
  (if (parse_u128 msg.onboarding_cost).isNone then ["onboarding_cost"] else []) ++
  (if msg.onboarding_denom.isEmpty then ["onboarding_denom"] else []) ++
  (if msg.fee_collection_address.isEmpty then ["fee_collection_address"] else []) ++
  (if Decimal.ltb Decimal.one msg.fee_percent then ["fee_percent"] else [])

/-- InitMsg::validate from src/core/msg.rs: collects every structurally invalid
field and rejects with InvalidFields when any exists. -/
def InitMsg.validate (msg : InitMsg) : Except ContractError Unit :=
  let invalid_fields := initInvalidFields msg
  if !invalid_fields.isEmpty then
    .error (.InvalidFields invalid_fields)
  else .ok ()

/-- Result bundle of a successful instantiation: the saved config, the stamped
version info, the name-binding message, and the event tag. -/
structure InitResponse where
  savedState : StateV2
  versionInfo : VersionInfo
  messages : List CosmosMsg
  attributes : List EventAttribute
deriving Repr, DecidableEq, Inhabited

/-- init_contract from src/instantiate/init_contract.rs: rejects accompanying
funds and a fee ratio above one, saves the config parsed from the message,
binds the contract name, and stamps the version info.  The source parses the
onboarding cost with an unwrap, so a parse failure there is a panic aborting
the call (Panicked); the dispatcher validates the message first, making that
branch unreachable.  The source file also copies payable_type and
oracle_address into a v1 State, fields the InitMsg in src/core/msg.rs does not
carry; only the fields both files agree on are modelled. -/
def init_contract (runningName : String) (runningVersion : SemVer)
    (info : MessageInfo) (msg : InitMsg) : Except ContractError InitResponse :=
  if !info.funds.isEmpty then
    .error (.Std "purchase funds are not allowed to be sent during init")
  else if Decimal.ltb Decimal.one msg.fee_percent then
    .error (.Std "fee must be less than 100%")
  else
    match parse_u128 msg.onboarding_cost with
    | none => .error (.Panicked "onboarding_cost parse unwrap failed")
    | some cost =>
        .ok { savedState :=
                { contract_name := msg.contract_name
                  onboarding_cost := cost
                  onboarding_denom := msg.onboarding_denom
                  fee_collection_address := msg.fee_collection_address
                  fee_percent := msg.fee_percent
                  is_local := msg.is_local.getD false }
              versionInfo := migrate_version_info runningName runningVersion
              messages := [.bindName msg.contract_name]
              attributes := [⟨"action", "init"⟩] }

/-- Modelled from the spec: section 6 states every command is structurally
validated before dispatch; the dispatcher wiring InitMsg::validate ahead of
init_contract is not among the provided v2 sources, so the pipeline is modelled
as validate-then-init. -/
def instantiate_contract (runningName : String) (runningVersion : SemVer)
    (info : MessageInfo) (msg : InitMsg) : Except ContractError InitResponse := do
  let _ ← msg.validate
  init_contract runningName runningVersion info msg

/-- Concrete configuration used by the witness instances, mirroring the test
suite defaults (onboarding cost 100 nhash, fee percent 75, local mode). -/
def stateW : StateV2 :=
  { contract_name := "payables.asset"
    onboarding_cost := 100
    onboarding_denom := "nhash"
    fee_collection_address := "feebucket"
    fee_percent := Decimal.percent 75
    is_local := true }

/-- Concrete registration command used by the witness instances. -/
def regW : RegisterPayableV2 :=
  { payable_type := "invoice"
    payable_uuid := "uuid-1"
    scope_id := "scope-1"
    oracle_address := "oracle"
    payable_denom := "nhash"
    payable_total := 1000 }

/-- Deposit of exactly the onboarding cost used for the witness registration. -/
def infoRegW : MessageInfo := ⟨"sender", [⟨"nhash", 100⟩]⟩

/-- Storage view for the witness registration: nothing registered yet. -/
def depsRegW : Deps :=
  { config := stateW
    payableMetaV2 := fun _ => none
    scopeAttrs := fun _ => []
    scopes := fun _ => none }

/-- Output of the witness registration. -/
def regOutW : RegisterResponse :=
  (register_payable depsRegW infoRegW regW).toOption.getD default

/-- Record as written by the witness registration, still unapproved. -/
def attrApproveW : PayableScopeAttribute := regW.to_scope_attribute

/-- Storage view for the witness approval: the record is registered. -/
def depsApproveW : Deps :=
  { config := stateW
    payableMetaV2 := fun u => if u == "uuid-1" then some ⟨"uuid-1", "scope-1"⟩ else none
    scopeAttrs := fun s => if s == "scope-1" then [attrApproveW] else []
    scopes := fun _ => none }

/-- Output of the witness approval. -/
def appOutW : OracleApprovalResponse :=
  (oracle_approval depsApproveW ⟨"oracle", []⟩ ⟨"uuid-1"⟩).toOption.getD default

/-- Record after the witness approval. -/
def attrPayW : PayableScopeAttribute := { attrApproveW with oracle_approved := true }

/-- Storage view for the witness payment: approved record, scope present. -/
def depsPayW : Deps :=
  { config := stateW
    payableMetaV2 := fun u => if u == "uuid-1" then some ⟨"uuid-1", "scope-1"⟩ else none
    scopeAttrs := fun s => if s == "scope-1" then [attrPayW] else []
    scopes := fun s => if s == "scope-1" then some ⟨"scope-1", ["sender"], "sender"⟩ else none }

/-- Deposit of 900 nhash used for the witness payment. -/
def payInfoW : MessageInfo := ⟨"payer", [⟨"nhash", 900⟩]⟩

/-- Output of the witness payment. -/
def payOutW : MakePaymentResponse :=
  (make_payment depsPayW payInfoW ⟨"uuid-1"⟩).toOption.getD default

/-- Approved record with nothing left owed, used for the C5 instances. -/
def attrZeroW : PayableScopeAttribute :=
  { attrPayW with payable_remaining_owed := 0 }

/-- Storage view holding the exhausted record. -/
def depsZeroW : Deps :=
  { config := stateW
    payableMetaV2 := fun u => if u == "uuid-1" then some ⟨"uuid-1", "scope-1"⟩ else none
    scopeAttrs := fun s => if s == "scope-1" then [attrZeroW] else []
    scopes := fun s => if s == "scope-1" then some ⟨"scope-1", ["sender"], "sender"⟩ else none }

/-- Presence of the per-field migration state-change tag among the emitted
event attributes. -/
def hasStateChangeTag (attrs : List EventAttribute) (field_name : String) : Bool :=
  attrs.any (fun a => a.key == MIGRATION_STATE_CHANGE_KEY_BASE ++ field_name)

/-- Concrete migration patch supplying the cost and fee address only. -/
def migW : MigrateContractV2 := ⟨some 500, none, some "newfeebucket", none⟩

/-- Output of the witness migration. -/
def migOutW : MigrateResponse :=
  (migrate_contract "payables.asset" ⟨1, 0, 1⟩ ⟨"payables.asset", ⟨1, 0, 0⟩⟩
    stateW migW).toOption.getD default

/-- Structurally valid instantiation message used as the witness base. -/
def initMsgW : InitMsg :=
  { contract_name := "payables.asset"
    onboarding_cost := "100"
    onboarding_denom := "nhash"
    fee_collection_address := "feebucket"
    fee_percent := Decimal.percent 50
    is_local := some true }

/-- Helper: the fee-charge computation depends on the message only through the
sender (the funds amount is passed separately). -/
theorem feeChargeFrom_sender (i1 i2 : MessageInfo) (state : StateV2) (a : Nat)
    (hs : i1.sender = i2.sender) :
    feeChargeFrom i1 state a = feeChargeFrom i2 state a := by
  simp [feeChargeFrom, hs]

/-- Helper: the collected fee never exceeds the onboarding cost while the fee
ratio is at most one. -/
theorem fee_collected_le_cost (state : StateV2)
    (hfee : state.fee_percent.atomics ≤ decimalFractional) :
    mulUint128Decimal state.onboarding_cost state.fee_percent ≤
      state.onboarding_cost := by
  have hF : 0 < decimalFractional := by norm_num [decimalFractional]
  have h1 : state.onboarding_cost * state.fee_percent.atomics ≤
      state.onboarding_cost * decimalFractional :=
    Nat.mul_le_mul_left _ hfee
  calc mulUint128Decimal state.onboarding_cost state.fee_percent
      = state.onboarding_cost * state.fee_percent.atomics / decimalFractional := rfl
    _ ≤ state.onboarding_cost * decimalFractional / decimalFractional :=
        Nat.div_le_div_right h1
    _ = state.onboarding_cost := Nat.mul_div_cancel _ hF

/-- C2: for a Register deposit of a single coin in the onboarding denom with
amount at least the onboarding cost, the fee calculator succeeds; the collected
fee is the floor of cost times fee ratio, the fee-collector transfer is emitted
exactly when it is positive, the kept oracle fee completes the partition of the
onboarding cost, and the refund to the sender of the overage is emitted exactly
when the overage is positive. -/
theorem claim_C2_register_fee_partition (state : StateV2) (sender : String)
    (d : Nat) (hfee : state.fee_percent.atomics ≤ decimalFractional)
    (hd : state.onboarding_cost ≤ d) :
    ∃ resp,
      validate_fee_params_get_messages
        ⟨sender, [⟨state.onboarding_denom, d⟩]⟩ state = .ok resp ∧
      (resp.fee_charge_message =
        if 0 < mulUint128Decimal state.onboarding_cost state.fee_percent then
          some (.bankSend state.fee_collection_address
            [⟨state.onboarding_denom,
              mulUint128Decimal state.onboarding_cost state.fee_percent⟩])
        else none) ∧
      mulUint128Decimal state.onboarding_cost state.fee_percent +
        resp.oracle_fee_amount_kept = state.onboarding_cost ∧
      resp.refund_amount = d - state.onboarding_cost ∧
      (resp.fee_refund_message =
        if 0 < d - state.onboarding_cost then
          some (.bankSend sender
            [⟨state.onboarding_denom, d - state.onboarding_cost⟩])
        else none) := by
  refine ⟨feeChargeFrom ⟨sender, [⟨state.onboarding_denom, d⟩]⟩ state d,
    ?_, ?_, ?_, ?_, ?_⟩
  · simp only [validate_fee_params_get_messages, invalidDenoms]
    simp [List.find?, Nat.not_lt.mpr hd]
  · simp [feeChargeFrom]
  · simp only [feeChargeFrom]
    exact Nat.add_sub_cancel' (fee_collected_le_cost state hfee)
  · rfl
  · rfl

/-- C10: when a Register deposit leads with a coin in the onboarding denom and
every later coin is also in the onboarding denom, the fee calculator behaves
exactly as if only the first coin had been sent: sufficiency is judged against
the first amount alone (InsufficientFundsProvided reports it), and on success
the refund is the first amount minus the cost, so later amounts are neither
counted nor refunded. -/
theorem claim_C10_first_coin_only (state : StateV2) (sender : String)
    (c : Coin) (rest : List Coin)
    (hc : c.denom = state.onboarding_denom)
    (hrest : ∀ x ∈ rest, x.denom = state.onboarding_denom) :
    validate_fee_params_get_messages ⟨sender, c :: rest⟩ state =
      validate_fee_params_get_messages ⟨sender, [c]⟩ state ∧
    (c.amount < state.onboarding_cost →
      validate_fee_params_get_messages ⟨sender, c :: rest⟩ state =
        .error (.InsufficientFundsProvided state.onboarding_cost c.amount)) ∧
    (state.onboarding_cost ≤ c.amount →
      ∃ resp,
        validate_fee_params_get_messages ⟨sender, c :: rest⟩ state = .ok resp ∧
        resp.refund_amount = c.amount - state.onboarding_cost) := by
  have hfilter : invalidDenoms (c :: rest) state.onboarding_denom = [] := by
    simp only [invalidDenoms, List.map_eq_nil_iff, List.filter_eq_nil_iff]
    intro x hx
    rcases List.mem_cons.mp hx with rfl | hx
    · simp [hc]
    · simp [hrest x hx]
  have hfilter1 : invalidDenoms [c] state.onboarding_denom = [] := by
    simp [invalidDenoms, hc]
  have hfind : (c :: rest).find? (fun x => x.denom == state.onboarding_denom) =
      some c := by
    apply List.find?_cons_of_pos
    simp [hc]
  have hmain : validate_fee_params_get_messages ⟨sender, c :: rest⟩ state =
      validate_fee_params_get_messages ⟨sender, [c]⟩ state := by
    simp only [validate_fee_params_get_messages, hfilter, hfilter1, hfind]
    simp [List.find?, hc,
      feeChargeFrom_sender ⟨sender, c :: rest⟩ ⟨sender, [c]⟩ state c.amount rfl]
  refine ⟨hmain, ?_, ?_⟩
  · intro hlt
    simp only [validate_fee_params_get_messages, hfilter, hfind]
    simp [hlt]
  · intro hge
    refine ⟨feeChargeFrom ⟨sender, c :: rest⟩ state c.amount, ?_, rfl⟩
    simp only [validate_fee_params_get_messages, hfilter, hfind]
    simp [Nat.not_lt.mpr hge]

/-- Witness for C2 at cost 100, fee 75 percent, deposit 150 nhash: fee 75 to
the collector, 25 kept, refund 50. -/
theorem claim_C2_register_fee_partition_witness :
    ∃ resp,
      validate_fee_params_get_messages ⟨"sender", [⟨stateW.onboarding_denom, 150⟩]⟩
        stateW = .ok resp ∧
      (resp.fee_charge_message =
        if 0 < mulUint128Decimal stateW.onboarding_cost stateW.fee_percent then
          some (.bankSend stateW.fee_collection_address
            [⟨stateW.onboarding_denom,
              mulUint128Decimal stateW.onboarding_cost stateW.fee_percent⟩])
        else none) ∧
      mulUint128Decimal stateW.onboarding_cost stateW.fee_percent +
        resp.oracle_fee_amount_kept = stateW.onboarding_cost ∧
      resp.refund_amount = 150 - stateW.onboarding_cost ∧
      (resp.fee_refund_message =
        if 0 < 150 - stateW.onboarding_cost then
          some (.bankSend "sender"
            [⟨stateW.onboarding_denom, 150 - stateW.onboarding_cost⟩])
        else none) :=
  claim_C2_register_fee_partition stateW "sender" 150 (by decide) (by decide)

/-- Witness for C10 with a deposit of two nhash coins (150 then 999): the
result matches the singleton deposit and the refund is 150 - 100 = 50. -/
theorem claim_C10_first_coin_only_witness :
    validate_fee_params_get_messages
        ⟨"sender", ⟨"nhash", 150⟩ :: [⟨"nhash", 999⟩]⟩ stateW =
      validate_fee_params_get_messages ⟨"sender", [⟨"nhash", 150⟩]⟩ stateW ∧
    ((⟨"nhash", 150⟩ : Coin).amount < stateW.onboarding_cost →
      validate_fee_params_get_messages
          ⟨"sender", ⟨"nhash", 150⟩ :: [⟨"nhash", 999⟩]⟩ stateW =
        .error (.InsufficientFundsProvided stateW.onboarding_cost
          (⟨"nhash", 150⟩ : Coin).amount)) ∧
    (stateW.onboarding_cost ≤ (⟨"nhash", 150⟩ : Coin).amount →
      ∃ resp,
        validate_fee_params_get_messages
            ⟨"sender", ⟨"nhash", 150⟩ :: [⟨"nhash", 999⟩]⟩ stateW = .ok resp ∧
        resp.refund_amount =
          (⟨"nhash", 150⟩ : Coin).amount - stateW.onboarding_cost) :=
  claim_C10_first_coin_only stateW "sender" ⟨"nhash", 150⟩ [⟨"nhash", 999⟩]
    (by decide) (by decide)

/-- C3: an Approve call with empty funds on a payable whose record is already
approved fails with DuplicateApproval naming that uuid, whoever the sender is;
the error abort means no payout message is emitted and no state is written. -/
theorem claim_C3_duplicate_approval (deps : Deps) (info : MessageInfo)
    (msg : OracleApprovalV1) (attr : PayableScopeAttribute)
    (hfunds : info.funds = [])
    (hattr : query_payable_attribute_by_uuid deps msg.payable_uuid = .ok attr)
    (happ : attr.oracle_approved = true) :
    oracle_approval deps info msg =
      .error (.DuplicateApproval msg.payable_uuid) := by
  simp [oracle_approval, hfunds, hattr, happ]

/-- Helper: with the fee ratio exactly one, the whole onboarding cost is the
fee, so the oracle payout is zero. -/
theorem oracleWithdrawAmount_of_one (state : StateV2)
    (he : state.fee_percent = Decimal.one) :
    oracleWithdrawAmount state = 0 := by
  have hF : 0 < decimalFractional := by norm_num [decimalFractional]
  simp [oracleWithdrawAmount, mulUint128Decimal, he, Decimal.one,
    Nat.mul_div_cancel _ hF]

/-- C4: every successful Approve pays the oracle exactly the onboarding cost
minus the floor of cost times the current fee ratio, emitting the single bank
transfer exactly when that payout is positive; with the fee ratio at one the
payout is zero, so no bank transfer is emitted at all. -/
theorem claim_C4_oracle_payout (deps : Deps) (info : MessageInfo)
    (msg : OracleApprovalV1) (out : OracleApprovalResponse)
    (h : oracle_approval deps info msg = .ok out) :
    (out.messages.filter isBankSend =
      if 0 < oracleWithdrawAmount deps.config then
        [.bankSend out.newAttr.oracle_address
          [⟨deps.config.onboarding_denom, oracleWithdrawAmount deps.config⟩]]
      else []) ∧
    (deps.config.fee_percent = Decimal.one →
      out.messages.filter isBankSend = []) := by
  rw [oracle_approval] at h
  split at h
  · simp at h
  · split at h
    · simp at h
    · split at h
      · simp at h
      · split at h
        · simp at h
        · injection h with h
          subst h
          constructor
          · by_cases hW : 0 < oracleWithdrawAmount deps.config
            · simp [hW, upsert_attribute_to_scope, isBankSend]
            · simp [hW, upsert_attribute_to_scope, isBankSend]
          · intro he
            simp [oracleWithdrawAmount_of_one deps.config he,
              upsert_attribute_to_scope, isBankSend]

/-- C1: lifecycle invariant on the payable record.  Register creates the
record with remaining owed equal to total owed; a successful Approve leaves
both amounts untouched; a successful Pay moves a positive payment not
exceeding the remainder and decrements the remainder by exactly the summed
deposit amount, so the remainder always stays between zero and the total. -/
theorem claim_C1_remaining_invariant :
    (∀ (deps : Deps) (info : MessageInfo) (reg : RegisterPayableV2)
        (out : RegisterResponse),
        register_payable deps info reg = .ok out →
        out.scopeAttribute.payable_remaining_owed = reg.payable_total ∧
        out.scopeAttribute.payable_total_owed = reg.payable_total) ∧
    (∀ (deps : Deps) (info : MessageInfo) (msg : OracleApprovalV1)
        (attr : PayableScopeAttribute) (out : OracleApprovalResponse),
        query_payable_attribute_by_uuid deps msg.payable_uuid = .ok attr →
        oracle_approval deps info msg = .ok out →
        out.newAttr.payable_remaining_owed = attr.payable_remaining_owed ∧
        out.newAttr.payable_total_owed = attr.payable_total_owed) ∧
    (∀ (deps : Deps) (info : MessageInfo) (msg : MakePaymentV1)
        (attr : PayableScopeAttribute) (out : MakePaymentResponse),
        query_payable_attribute_by_uuid deps msg.payable_uuid = .ok attr →
        make_payment deps info msg = .ok out →
        0 < sumFunds info.funds ∧
        sumFunds info.funds ≤ attr.payable_remaining_owed ∧
        out.newAttr.payable_remaining_owed + sumFunds info.funds =
          attr.payable_remaining_owed ∧
        out.newAttr.payable_total_owed = attr.payable_total_owed ∧
        (attr.payable_remaining_owed ≤ attr.payable_total_owed →
          out.newAttr.payable_remaining_owed ≤
            out.newAttr.payable_total_owed)) := by
  refine ⟨?_, ?_, ?_⟩
  · intro deps info reg out h
    simp only [register_payable, bind, Except.bind] at h
    split at h
    · simp at h
    · split at h
      · simp at h
      · split at h
        · simp at h
        · simp only [pure, Except.pure] at h
          injection h with h
          subst h
          simp [RegisterPayableV2.to_scope_attribute]
  · intro deps info msg attr out hq h
    rw [oracle_approval] at h
    split at h
    · simp at h
    · split at h
      next heq => simp [hq] at heq
      next attr2 heq =>
        rw [hq] at heq
        injection heq with heq
        subst heq
        split at h
        · simp at h
        · split at h
          · simp at h
          · injection h with h
            subst h
            simp
  · intro deps info msg attr out hq h
    rw [make_payment] at h
    split at h
    next heq => simp [hq] at heq
    next attr2 heq =>
      rw [hq] at heq
      injection heq with heq
      subst heq
      by_cases happ : attr.oracle_approved = true
      · simp only [happ, Bool.not_true, Bool.false_eq_true, if_false] at h
        cases hinv : (invalidDenoms info.funds attr.payable_denom).isEmpty with
        | false => simp [hinv] at h
        | true =>
          simp only [hinv, Bool.not_true, Bool.false_eq_true, if_false] at h
          cases hz : sumFunds info.funds == 0 with
          | true => simp [hz] at h
          | false =>
            simp only [hz, Bool.false_eq_true, if_false] at h
            by_cases hbig : sumFunds info.funds > attr.payable_remaining_owed
            · simp [hbig] at h
            · simp only [if_neg hbig] at h
              cases hscope : deps.scopes attr.scope_id with
              | none => simp [hscope] at h
              | some scope =>
                simp only [hscope] at h
                injection h with h
                subst h
                have hz2 : sumFunds info.funds ≠ 0 := by
                  simpa using hz
                have hle : sumFunds info.funds ≤ attr.payable_remaining_owed :=
                  Nat.not_lt.mp hbig
                refine ⟨Nat.pos_of_ne_zero hz2, hle, ?_, rfl, ?_⟩
                · simpa using Nat.sub_add_cancel hle
                · intro htot
                  simp only
                  omega
      · simp [happ] at h

/-- Witness for C1: a concrete register, approve, and pay all succeed and
exhibit the invariant facts. -/
theorem claim_C1_remaining_invariant_witness :
    (regOutW.scopeAttribute.payable_remaining_owed = regW.payable_total ∧
     regOutW.scopeAttribute.payable_total_owed = regW.payable_total) ∧
    (appOutW.newAttr.payable_remaining_owed = attrApproveW.payable_remaining_owed ∧
     appOutW.newAttr.payable_total_owed = attrApproveW.payable_total_owed) ∧
    (0 < sumFunds payInfoW.funds ∧
     sumFunds payInfoW.funds ≤ attrPayW.payable_remaining_owed ∧
     payOutW.newAttr.payable_remaining_owed + sumFunds payInfoW.funds =
       attrPayW.payable_remaining_owed ∧
     payOutW.newAttr.payable_total_owed = attrPayW.payable_total_owed ∧
     (attrPayW.payable_remaining_owed ≤ attrPayW.payable_total_owed →
       payOutW.newAttr.payable_remaining_owed ≤
         payOutW.newAttr.payable_total_owed)) :=
  ⟨claim_C1_remaining_invariant.1 depsRegW infoRegW regW regOutW (by decide),
   claim_C1_remaining_invariant.2.1 depsApproveW ⟨"oracle", []⟩ ⟨"uuid-1"⟩
     attrApproveW appOutW (by decide) (by decide),
   claim_C1_remaining_invariant.2.2 depsPayW payInfoW ⟨"uuid-1"⟩
     attrPayW payOutW (by decide) (by decide)⟩

/-- C5 counterexample: on an approved payable with zero remaining owed, a
deposit consisting of one coin in a foreign denom has summed amount zero in
the payable denom, yet the call fails with InvalidFundsProvided, not with the
NoFundsProvided the claim predicts for that case. -/
theorem claim_C5_counterexample :
    attrZeroW.oracle_approved = true ∧
    attrZeroW.payable_remaining_owed = 0 ∧
    query_payable_attribute_by_uuid depsZeroW "uuid-1" = .ok attrZeroW ∧
    sumFunds (List.filter (fun c => c.denom == attrZeroW.payable_denom)
      [⟨"notnhash", 5⟩]) = 0 ∧
    make_payment depsZeroW ⟨"payer", [⟨"notnhash", 5⟩]⟩ ⟨"uuid-1"⟩ =
      .error (.InvalidFundsProvided "nhash" ["notnhash"]) ∧
    make_payment depsZeroW ⟨"payer", [⟨"notnhash", 5⟩]⟩ ⟨"uuid-1"⟩ ≠
      .error (.NoFundsProvided "nhash") := by
  decide

/-- C5 amended: every Pay call on an approved payable with zero remaining owed
fails and writes nothing; the failure is InvalidFundsProvided when any
deposited coin is in a foreign denom, otherwise NoFundsProvided when the
summed deposit is zero and PaymentTooLarge (against the remaining zero)
otherwise. -/
theorem claim_C5_zero_remaining_terminal (deps : Deps) (info : MessageInfo)
    (msg : MakePaymentV1) (attr : PayableScopeAttribute)
    (hattr : query_payable_attribute_by_uuid deps msg.payable_uuid = .ok attr)
    (happ : attr.oracle_approved = true)
    (hrem : attr.payable_remaining_owed = 0) :
    (∃ e, make_payment deps info msg = .error e) ∧
    (invalidDenoms info.funds attr.payable_denom ≠ [] →
      make_payment deps info msg =
        .error (.InvalidFundsProvided attr.payable_denom
          (invalidDenoms info.funds attr.payable_denom))) ∧
    (invalidDenoms info.funds attr.payable_denom = [] →
      (sumFunds info.funds = 0 →
        make_payment deps info msg =
          .error (.NoFundsProvided attr.payable_denom)) ∧
      (sumFunds info.funds ≠ 0 →
        make_payment deps info msg =
          .error (.PaymentTooLarge 0 (sumFunds info.funds)))) := by
  have h2 : invalidDenoms info.funds attr.payable_denom ≠ [] →
      make_payment deps info msg =
        .error (.InvalidFundsProvided attr.payable_denom
          (invalidDenoms info.funds attr.payable_denom)) := by
    intro hne
    have hne2 : (invalidDenoms info.funds attr.payable_denom).isEmpty = false := by
      simpa [List.isEmpty_iff] using hne
    simp [make_payment, hattr, happ, hne2]
  have h3 : invalidDenoms info.funds attr.payable_denom = [] →
      (sumFunds info.funds = 0 →
        make_payment deps info msg =
          .error (.NoFundsProvided attr.payable_denom)) ∧
      (sumFunds info.funds ≠ 0 →
        make_payment deps info msg =
          .error (.PaymentTooLarge 0 (sumFunds info.funds))) := by
    intro hemp
    constructor
    · intro hz
      simp [make_payment, hattr, happ, hemp, hz]
    · intro hz
      have hpos : 0 < sumFunds info.funds := Nat.pos_of_ne_zero hz
      simp [make_payment, hattr, happ, hemp, hz, hrem, hpos]
  refine ⟨?_, h2, h3⟩
  by_cases hinv : invalidDenoms info.funds attr.payable_denom = []
  · by_cases hz : sumFunds info.funds = 0
    · exact ⟨_, (h3 hinv).1 hz⟩
    · exact ⟨_, (h3 hinv).2 hz⟩
  · exact ⟨_, h2 hinv⟩

/-- Witness for the amended C5 at the exhausted record: an empty deposit fails
with NoFundsProvided and a 3 nhash deposit fails with PaymentTooLarge. -/
theorem claim_C5_zero_remaining_terminal_witness :
    (∃ e, make_payment depsZeroW ⟨"payer", [⟨"nhash", 3⟩]⟩ ⟨"uuid-1"⟩ =
      .error e) ∧
    (invalidDenoms [⟨"nhash", 3⟩] attrZeroW.payable_denom ≠ [] →
      make_payment depsZeroW ⟨"payer", [⟨"nhash", 3⟩]⟩ ⟨"uuid-1"⟩ =
        .error (.InvalidFundsProvided attrZeroW.payable_denom
          (invalidDenoms [⟨"nhash", 3⟩] attrZeroW.payable_denom))) ∧
    (invalidDenoms [⟨"nhash", 3⟩] attrZeroW.payable_denom = [] →
      (sumFunds [⟨"nhash", 3⟩] = 0 →
        make_payment depsZeroW ⟨"payer", [⟨"nhash", 3⟩]⟩ ⟨"uuid-1"⟩ =
          .error (.NoFundsProvided attrZeroW.payable_denom)) ∧
      (sumFunds [⟨"nhash", 3⟩] ≠ 0 →
        make_payment depsZeroW ⟨"payer", [⟨"nhash", 3⟩]⟩ ⟨"uuid-1"⟩ =
          .error (.PaymentTooLarge 0 (sumFunds [⟨"nhash", 3⟩])))) :=
  claim_C5_zero_remaining_terminal depsZeroW ⟨"payer", [⟨"nhash", 3⟩]⟩
    ⟨"uuid-1"⟩ attrZeroW (by decide) (by decide) (by decide)

/-- C7: for Register and (on a located, approved record) for Pay, a deposit
containing any coin in a denom other than the expected one aborts the whole
call with InvalidFundsProvided, whose invalid list is exactly the denoms of
the offending coins. -/
theorem claim_C7_denom_isolation :
    (∀ (deps : Deps) (info : MessageInfo) (reg : RegisterPayableV2),
      invalidDenoms info.funds deps.config.onboarding_denom ≠ [] →
      register_payable deps info reg =
        .error (.InvalidFundsProvided deps.config.onboarding_denom
          (invalidDenoms info.funds deps.config.onboarding_denom))) ∧
    (∀ (deps : Deps) (info : MessageInfo) (msg : MakePaymentV1)
        (attr : PayableScopeAttribute),
      query_payable_attribute_by_uuid deps msg.payable_uuid = .ok attr →
      attr.oracle_approved = true →
      invalidDenoms info.funds attr.payable_denom ≠ [] →
      make_payment deps info msg =
        .error (.InvalidFundsProvided attr.payable_denom
          (invalidDenoms info.funds attr.payable_denom))) := by
  constructor
  · intro deps info reg hne
    have hne2 : (invalidDenoms info.funds deps.config.onboarding_denom).isEmpty
        = false := by
      simpa [List.isEmpty_iff] using hne
    simp [register_payable, validate_fee_params_get_messages, hne2,
      bind, Except.bind]
  · intro deps info msg attr hattr happ hne
    have hne2 : (invalidDenoms info.funds attr.payable_denom).isEmpty = false := by
      simpa [List.isEmpty_iff] using hne
    simp [make_payment, hattr, happ, hne2]

/-- Witness for C7: a register deposit and a pay deposit each holding a coin in
a wrong denom are rejected with exactly that denom listed. -/
theorem claim_C7_denom_isolation_witness :
    register_payable depsRegW ⟨"sender", [⟨"nhash", 100⟩, ⟨"bad", 7⟩]⟩ regW =
      .error (.InvalidFundsProvided depsRegW.config.onboarding_denom
        (invalidDenoms [⟨"nhash", 100⟩, ⟨"bad", 7⟩]
          depsRegW.config.onboarding_denom)) ∧
    make_payment depsPayW ⟨"payer", [⟨"bad", 7⟩]⟩ ⟨"uuid-1"⟩ =
      .error (.InvalidFundsProvided attrPayW.payable_denom
        (invalidDenoms [⟨"bad", 7⟩] attrPayW.payable_denom)) :=
  ⟨claim_C7_denom_isolation.1 depsRegW ⟨"sender", [⟨"nhash", 100⟩, ⟨"bad", 7⟩]⟩
     regW (by decide),
   claim_C7_denom_isolation.2 depsPayW ⟨"payer", [⟨"bad", 7⟩]⟩ ⟨"uuid-1"⟩
     attrPayW (by decide) (by decide) (by decide)⟩

/-- Witness for C3: a second approval on the already-approved record fails with
DuplicateApproval regardless of the sender. -/
theorem claim_C3_duplicate_approval_witness :
    oracle_approval depsPayW ⟨"anyone", []⟩ ⟨"uuid-1"⟩ =
      .error (.DuplicateApproval "uuid-1") :=
  claim_C3_duplicate_approval depsPayW ⟨"anyone", []⟩ ⟨"uuid-1"⟩ attrPayW
    rfl (by decide) (by decide)

/-- Witness for C4 at the concrete approval: cost 100, fee 75 percent, so the
payout is 25 and exactly one bank transfer to the oracle is present. -/
theorem claim_C4_oracle_payout_witness :
    (appOutW.messages.filter isBankSend =
      if 0 < oracleWithdrawAmount depsApproveW.config then
        [.bankSend appOutW.newAttr.oracle_address
          [⟨depsApproveW.config.onboarding_denom,
            oracleWithdrawAmount depsApproveW.config⟩]]
      else []) ∧
    (depsApproveW.config.fee_percent = Decimal.one →
      appOutW.messages.filter isBankSend = []) :=
  claim_C4_oracle_payout depsApproveW ⟨"oracle", []⟩ ⟨"uuid-1"⟩ appOutW
    (by decide)

/-- C6: the migration gate runs before any write; a stored contract identifier
differing from the running binary identifier fails with InvalidContractName,
and with matching identifiers a stored semantic version strictly greater than
the running one fails with InvalidContractVersion.  The error return aborts
the call, so neither the config nor the version info is mutated. -/
theorem claim_C6_migration_gate (rn : String) (rv : SemVer)
    (stored : VersionInfo) (state : StateV2) (migrate : MigrateContractV2) :
    (stored.contract ≠ rn →
      migrate_contract rn rv stored state migrate =
        .error (.InvalidContractName stored.contract rn)) ∧
    (stored.contract = rn → SemVer.ltb rv stored.version = true →
      migrate_contract rn rv stored state migrate =
        .error (.InvalidContractVersion stored.version rv)) := by
  constructor
  · intro hne
    have hb : (rn != stored.contract) = true := by
      simpa [bne_iff_ne] using (Ne.symm hne)
    simp [migrate_contract, check_valid_migration_versioning, hb,
      bind, Except.bind]
  · intro heq hlt
    have hb : (rn != stored.contract) = false := by
      simp [heq]
    simp [migrate_contract, check_valid_migration_versioning, hb, hlt,
      bind, Except.bind]

/-- Witness for C6: a foreign stored name is rejected by name, and a stored
version 99.9.9 above the running 1.0.1 is rejected as a downgrade. -/
theorem claim_C6_migration_gate_witness :
    migrate_contract "payables.asset" ⟨1, 0, 1⟩ ⟨"other.contract", ⟨1, 0, 0⟩⟩
        stateW ⟨none, none, none, none⟩ =
      .error (.InvalidContractName "other.contract" "payables.asset") ∧
    migrate_contract "payables.asset" ⟨1, 0, 1⟩ ⟨"payables.asset", ⟨99, 9, 9⟩⟩
        stateW ⟨none, none, none, none⟩ =
      .error (.InvalidContractVersion ⟨99, 9, 9⟩ ⟨1, 0, 1⟩) :=
  ⟨(claim_C6_migration_gate "payables.asset" ⟨1, 0, 1⟩
      ⟨"other.contract", ⟨1, 0, 0⟩⟩ stateW ⟨none, none, none, none⟩).1
      (by decide),
   (claim_C6_migration_gate "payables.asset" ⟨1, 0, 1⟩
      ⟨"payables.asset", ⟨99, 9, 9⟩⟩ stateW ⟨none, none, none, none⟩).2
      rfl (by decide)⟩

/-- C8: every successful migration writes exactly the supplied optional fields
into the config (each tagged with its state-change event, and only those),
leaves the contract name and local flag untouched, and re-stamps the version
info to the running binary identifier and version, emitting the name and
version tags, even when no field is supplied at all. -/
theorem claim_C8_migration_frame (rn : String) (rv : SemVer)
    (stored : VersionInfo) (state : StateV2) (migrate : MigrateContractV2)
    (out : MigrateResponse)
    (h : migrate_contract rn rv stored state migrate = .ok out) :
    out.newState.onboarding_cost =
      migrate.onboarding_cost.getD state.onboarding_cost ∧
    out.newState.onboarding_denom =
      migrate.onboarding_denom.getD state.onboarding_denom ∧
    out.newState.fee_collection_address =
      migrate.fee_collection_address.getD state.fee_collection_address ∧
    out.newState.fee_percent = migrate.fee_percent.getD state.fee_percent ∧
    out.newState.contract_name = state.contract_name ∧
    out.newState.is_local = state.is_local ∧
    out.newVersionInfo = ⟨rn, rv⟩ ∧
    hasStateChangeTag out.attributes "onboarding_cost" =
      migrate.onboarding_cost.isSome ∧
    hasStateChangeTag out.attributes "onboarding_denom" =
      migrate.onboarding_denom.isSome ∧
    hasStateChangeTag out.attributes "fee_collection_address" =
      migrate.fee_collection_address.isSome ∧
    hasStateChangeTag out.attributes "fee_percent" =
      migrate.fee_percent.isSome ∧
    EventAttribute.mk MIGRATION_CONTRACT_NAME rn ∈ out.attributes ∧
    EventAttribute.mk MIGRATION_CONTRACT_VERSION rv.str ∈ out.attributes := by
  rw [migrate_contract] at h
  simp only [bind, Except.bind] at h
  split at h
  · simp at h
  · simp only [pure, Except.pure, migrate_version_info] at h
    injection h with h
    subst h
    rcases migrate with ⟨oc, od, fa, fp⟩
    rcases oc with _ | c <;> rcases od with _ | d <;>
      rcases fa with _ | a <;> rcases fp with _ | p <;>
      simp +decide [MigrateContractV2.has_state_changes, hasStateChangeTag,
        state_change_attribute, MIGRATION_STATE_CHANGE_KEY_BASE,
        MIGRATION_CONTRACT_NAME, MIGRATION_CONTRACT_VERSION]

/-- Witness for C8 at the concrete migration patching cost and fee address. -/
theorem claim_C8_migration_frame_witness :
    migOutW.newState.onboarding_cost =
      migW.onboarding_cost.getD stateW.onboarding_cost ∧
    migOutW.newState.onboarding_denom =
      migW.onboarding_denom.getD stateW.onboarding_denom ∧
    migOutW.newState.fee_collection_address =
      migW.fee_collection_address.getD stateW.fee_collection_address ∧
    migOutW.newState.fee_percent = migW.fee_percent.getD stateW.fee_percent ∧
    migOutW.newState.contract_name = stateW.contract_name ∧
    migOutW.newState.is_local = stateW.is_local ∧
    migOutW.newVersionInfo = ⟨"payables.asset", ⟨1, 0, 1⟩⟩ ∧
    hasStateChangeTag migOutW.attributes "onboarding_cost" =
      migW.onboarding_cost.isSome ∧
    hasStateChangeTag migOutW.attributes "onboarding_denom" =
      migW.onboarding_denom.isSome ∧
    hasStateChangeTag migOutW.attributes "fee_collection_address" =
      migW.fee_collection_address.isSome ∧
    hasStateChangeTag migOutW.attributes "fee_percent" =
      migW.fee_percent.isSome ∧
    EventAttribute.mk MIGRATION_CONTRACT_NAME "payables.asset" ∈
      migOutW.attributes ∧
    EventAttribute.mk MIGRATION_CONTRACT_VERSION (SemVer.str ⟨1, 0, 1⟩) ∈
      migOutW.attributes :=
  claim_C8_migration_frame "payables.asset" ⟨1, 0, 1⟩
    ⟨"payables.asset", ⟨1, 0, 0⟩⟩ stateW migW migOutW (by decide)

/-- C9: instantiation fails whenever funds accompany the call, whenever the
fee ratio exceeds one, and whenever the onboarding cost string does not parse
as a non-negative integer; each failure is an error return, so no config state
is saved. -/
theorem claim_C9_init_failures (rn : String) (rv : SemVer)
    (info : MessageInfo) (msg : InitMsg) :
    (info.funds ≠ [] →
      ∃ e, instantiate_contract rn rv info msg = .error e) ∧
    (Decimal.ltb Decimal.one msg.fee_percent = true →
      ∃ e, instantiate_contract rn rv info msg = .error e) ∧
    ((parse_u128 msg.onboarding_cost).isNone = true →
      ∃ e, instantiate_contract rn rv info msg = .error e) := by
  refine ⟨?_, ?_, ?_⟩
  · intro hf
    cases hv : msg.validate with
    | error e =>
        exact ⟨e, by simp [instantiate_contract, bind, Except.bind, hv]⟩
    | ok u =>
        refine ⟨.Std "purchase funds are not allowed to be sent during init", ?_⟩
        have hfe : info.funds.isEmpty = false := by
          simpa [List.isEmpty_iff] using hf
        simp [instantiate_contract, bind, Except.bind, hv, init_contract, hfe]
  · intro hfee
    have hne : initInvalidFields msg ≠ [] := by
      simp [initInvalidFields, hfee, List.append_eq_nil]
    have hv : msg.validate = .error (.InvalidFields (initInvalidFields msg)) := by
      have he : (initInvalidFields msg).isEmpty = false := by
        simpa [List.isEmpty_iff] using hne
      simp [InitMsg.validate, he]
    exact ⟨.InvalidFields (initInvalidFields msg),
      by simp [instantiate_contract, bind, Except.bind, hv]⟩
  · intro hparse
    have hne : initInvalidFields msg ≠ [] := by
      simp [initInvalidFields, hparse, List.append_eq_nil]
    have hv : msg.validate = .error (.InvalidFields (initInvalidFields msg)) := by
      have he : (initInvalidFields msg).isEmpty = false := by
        simpa [List.isEmpty_iff] using hne
      simp [InitMsg.validate, he]
    exact ⟨.InvalidFields (initInvalidFields msg),
      by simp [instantiate_contract, bind, Except.bind, hv]⟩

/-- Witness for C9: funds on the call, a 101 percent fee, and a non-numeric
cost each make instantiation fail. -/
theorem claim_C9_init_failures_witness :
    (∃ e, instantiate_contract "payables.asset" ⟨1, 0, 1⟩
      ⟨"sender", [⟨"nhash", 5⟩]⟩ initMsgW = .error e) ∧
    (∃ e, instantiate_contract "payables.asset" ⟨1, 0, 1⟩ ⟨"sender", []⟩
      { initMsgW with fee_percent := Decimal.percent 101 } = .error e) ∧
    (∃ e, instantiate_contract "payables.asset" ⟨1, 0, 1⟩ ⟨"sender", []⟩
      { initMsgW with onboarding_cost := "word" } = .error e) :=
  ⟨(claim_C9_init_failures "payables.asset" ⟨1, 0, 1⟩
      ⟨"sender", [⟨"nhash", 5⟩]⟩ initMsgW).1 (by decide),
   (claim_C9_init_failures "payables.asset" ⟨1, 0, 1⟩ ⟨"sender", []⟩
      { initMsgW with fee_percent := Decimal.percent 101 }).2.1 (by decide),
   (claim_C9_init_failures "payables.asset" ⟨1, 0, 1⟩ ⟨"sender", []⟩
      { initMsgW with onboarding_cost := "word" }).2.2 (by decide)⟩

end PayableContract
